import Mathlib

/- Shallow embedding of the browser automation session manager
   (src/tools/web_browser/lib/browser_manager.py).

   Pure data is modelled directly; the Playwright page surface is abstracted:
   external effects (context creation, page creation, mouse moves, keyboard
   events, crosshair injection, screenshot capture, resource closing, lock
   acquisition) are recorded as an explicit trace of `BrowserEvent`s, and
   exceptions raised by the surface are supplied as Boolean oracles. -/

/-- ConsoleEntry: the record appended by `on_console` in
`BrowserManager._setup_console_listener`: `{type, text, timestamp, location}`. -/
structure ConsoleEntry where
  msgType : String
  text : String
  timestamp : Nat
  location : String
deriving DecidableEq, Repr

/-- Abstract events emitted to the page surface / lock, used to model the
side effects of `BrowserManager` methods as traces. -/
inductive BrowserEvent where
  | acquireLock
  | releaseLock
  | newContext (w h : Int)
  | newPage (id : Nat)
  | consoleSubscribe
  | mouseMove (x y : Int)
  | keyboardDown (k : String)
  | keyboardPress (k : String)
  | keyboardUp (k : String)
  | injectAttempt
  | screenshotCapture
  | removeCrosshair
  | closePage
  | closeBrowser
  | stopPlaywright
  | consoleAppend
deriving DecidableEq, Repr

/-- The mutable state of a `BrowserManager` instance: `self.page` (session
identity or absent), `self.browser`, `self.playwright`, `self.screenshot_index`,
`self.mouse_x`/`self.mouse_y`, `self.console_messages`, and the construction-time
configuration `self.window_width`/`self.window_height`/`self.reconnect_timeout`
(the timeout is modelled as a retry-attempt budget). `nextPageId` supplies fresh
page identities. -/
structure BrowserState where
  page : Option Nat
  browser : Option Nat
  playwright : Option Nat
  screenshot_index : Nat
  mouse_x : Int
  mouse_y : Int
  console_messages : List ConsoleEntry
  window_width : Int
  window_height : Int
  reconnect_timeout : Nat
  nextPageId : Nat
deriving DecidableEq, Repr

/-- The manager state right after `__init__`: no page yet, counters and cursor
zeroed, console buffer empty, browser and playwright live (config uses the
default 1024x768 viewport of `ServerConfig`). -/
def initState : BrowserState :=
  { page := none, browser := some 0, playwright := some 0,
    screenshot_index := 0, mouse_x := 0, mouse_y := 0,
    console_messages := [],
    window_width := 1024, window_height := 768,
    reconnect_timeout := 15, nextPageId := 1 }

/-- KEY_MAP from browser_manager.py, transcribed verbatim in source order
(a Python dict literal with no duplicate keys, so first-match lookup agrees
with dict lookup). -/
def KEY_MAP : List (String × String) := [
  ("f1", "F1"),
  ("f2", "F2"),
  ("f3", "F3"),
  ("f4", "F4"),
  ("f5", "F5"),
  ("f6", "F6"),
  ("f7", "F7"),
  ("f8", "F8"),
  ("f9", "F9"),
  ("f10", "F10"),
  ("f11", "F11"),
  ("f12", "F12"),
  ("0", "Digit0"),
  ("1", "Digit1"),
  ("2", "Digit2"),
  ("3", "Digit3"),
  ("4", "Digit4"),
  ("5", "Digit5"),
  ("6", "Digit6"),
  ("7", "Digit7"),
  ("8", "Digit8"),
  ("9", "Digit9"),
  ("a", "KeyA"),
  ("b", "KeyB"),
  ("c", "KeyC"),
  ("d", "KeyD"),
  ("e", "KeyE"),
  ("f", "KeyF"),
  ("g", "KeyG"),
  ("h", "KeyH"),
  ("i", "KeyI"),
  ("j", "KeyJ"),
  ("k", "KeyK"),
  ("l", "KeyL"),
  ("m", "KeyM"),
  ("n", "KeyN"),
  ("o", "KeyO"),
  ("p", "KeyP"),
  ("q", "KeyQ"),
  ("r", "KeyR"),
  ("s", "KeyS"),
  ("t", "KeyT"),
  ("u", "KeyU"),
  ("v", "KeyV"),
  ("w", "KeyW"),
  ("x", "KeyX"),
  ("y", "KeyY"),
  ("z", "KeyZ"),
  ("up", "ArrowUp"),
  ("down", "ArrowDown"),
  ("left", "ArrowLeft"),
  ("right", "ArrowRight"),
  ("arrow_up", "ArrowUp"),
  ("arrow_down", "ArrowDown"),
  ("arrow_left", "ArrowLeft"),
  ("arrow_right", "ArrowRight"),
  ("home", "Home"),
  ("end", "End"),
  ("page_up", "PageUp"),
  ("page_down", "PageDown"),
  ("pageup", "PageUp"),
  ("pagedown", "PageDown"),
  ("backspace", "Backspace"),
  ("delete", "Delete"),
  ("insert", "Insert"),
  ("enter", "Enter"),
  ("return", "Enter"),
  ("tab", "Tab"),
  ("escape", "Escape"),
  ("esc", "Escape"),
  ("shift", "Shift"),
  ("ctrl", "Control"),
  ("control", "Control"),
  ("alt", "Alt"),
  ("meta", "Meta"),
  ("shift_left", "ShiftLeft"),
  ("ctrl_or_meta", "ControlOrMeta"),
  ("control_or_meta", "ControlOrMeta"),
  ("space", " "),
  ("spacebar", " "),
  ("backquote", "Backquote"),
  ("\x60", "Backquote"),
  ("backtick", "Backquote"),
  ("minus", "Minus"),
  ("-", "Minus"),
  ("dash", "Minus"),
  ("equal", "Equal"),
  ("=", "Equal"),
  ("equals", "Equal"),
  ("backslash", "Backslash"),
  ("\\", "Backslash"),
  ("bracket_left", "BracketLeft"),
  ("[", "BracketLeft"),
  ("bracket_right", "BracketRight"),
  ("]", "BracketRight"),
  ("semicolon", "Semicolon"),
  (";", "Semicolon"),
  ("quote", "Quote"),
  ("\x27", "Quote"),
  ("apostrophe", "Quote"),
  ("comma", "Comma"),
  (",", "Comma"),
  ("period", "Period"),
  (".", "Period"),
  ("dot", "Period"),
  ("slash", "Slash"),
  ("/", "Slash"),
  ("numpad_0", "Numpad0"),
  ("numpad_1", "Numpad1"),
  ("numpad_2", "Numpad2"),
  ("numpad_3", "Numpad3"),
  ("numpad_4", "Numpad4"),
  ("numpad_5", "Numpad5"),
  ("numpad_6", "Numpad6"),
  ("numpad_7", "Numpad7"),
  ("numpad_8", "Numpad8"),
  ("numpad_9", "Numpad9"),
  ("numpad_add", "NumpadAdd"),
  ("numpad_subtract", "NumpadSubtract"),
  ("numpad_multiply", "NumpadMultiply"),
  ("numpad_divide", "NumpadDivide"),
  ("numpad_decimal", "NumpadDecimal"),
  ("numpad_enter", "NumpadEnter"),
  ("caps_lock", "CapsLock"),
  ("capslock", "CapsLock"),
  ("num_lock", "NumLock"),
  ("numlock", "NumLock"),
  ("scroll_lock", "ScrollLock"),
  ("scrolllock", "ScrollLock"),
  ("ENTER", "Enter"),
  ("ESCAPE", "Escape"),
  ("BACKSPACE", "Backspace"),
  ("DELETE", "Delete"),
  ("TAB", "Tab"),
  ("SPACE", " "),
  ("UP", "ArrowUp"),
  ("DOWN", "ArrowDown"),
  ("LEFT", "ArrowLeft"),
  ("RIGHT", "ArrowRight"),
  ("HOME", "Home"),
  ("END", "End")
]

/-- Model of `', '.join(...)` on a list of strings. -/
def joinComma : List String → String
  | [] => ""
  | [s] => s
  | s :: rest => s ++ ", " ++ joinComma rest

/-- The error message raised by `BrowserManager.get_key` for an unmapped key:
`f"Key {key} not found. Supported keys: {', '.join(KEY_MAP.keys())}"`. -/
def supported_keys_message (key : String) : String :=
  "Key " ++ key ++ " not found. Supported keys: " ++ joinComma (KEY_MAP.map Prod.fst)

/-- ASCII lowering of one character, as Python's `str.lower()` performs on
the ASCII range (every KEY_MAP key is ASCII). -/
def lowerChar (c : Char) : Char :=
  if 65 ≤ c.toNat ∧ c.toNat ≤ 90 then Char.ofNat (c.toNat + 32) else c

/-- Model of Python's `key.lower()` (ASCII range). -/
def pyLower (s : String) : String := String.mk (s.data.map lowerChar)

/-- `BrowserManager.get_key`: looks up `key.lower()` in KEY_MAP; raises
ValueError (modelled as `Except.error`) listing all supported keys when the
lower-cased key is unmapped. -/
def get_key (key : String) : Except String String :=
  match KEY_MAP.lookup (pyLower key) with
  | some v => Except.ok v
  | none => Except.error (supported_keys_message key)

/-- `BrowserManager._ensure_browser`: returns `self.page` if present (early
return, `self.browser` is not touched); otherwise dereferences `self.browser`
— raising AttributeError when it is `None`, as after `cleanup` — and then
creates a context at the configured viewport, creates a page, registers the
console listener, moves the mouse to (0,0) on the surface and zeroes the
stored cursor. Returns the page identity or the propagated exception, the new
state, and the emitted surface events. -/
def ensure_browser (s : BrowserState) : Except String Nat × BrowserState × List BrowserEvent :=
  match s.page with
  | some p => (Except.ok p, s, [])
  | none =>
    match s.browser with
    | none => (Except.error "AttributeError: browser is None", s, [])
    | some _ =>
      let pid := s.nextPageId
      (Except.ok pid,
       { s with page := some pid, mouse_x := 0, mouse_y := 0, nextPageId := pid + 1 },
       [BrowserEvent.newContext s.window_width s.window_height,
        BrowserEvent.newPage pid,
        BrowserEvent.consoleSubscribe,
        BrowserEvent.mouseMove 0 0])

/-- The `on_console` callback registered by
`BrowserManager._setup_console_listener`: appends the entry to
`self.console_messages` without acquiring `self._lock`. -/
def on_console (e : ConsoleEntry) (s : BrowserState) : BrowserState × List BrowserEvent :=
  ({ s with console_messages := s.console_messages ++ [e] },
   [BrowserEvent.consoleAppend])

/-- `BrowserManager.get_console_output`: under `self._lock`, copies the buffer,
clears it, and returns the copy. -/
def get_console_output (s : BrowserState) : List ConsoleEntry × BrowserState × List BrowserEvent :=
  (s.console_messages,
   { s with console_messages := [] },
   [BrowserEvent.acquireLock, BrowserEvent.releaseLock])

/-- A `resource.close()` / `playwright.stop()` call: always attempted (the
event is emitted), and raises when the oracle `fails` says so. -/
def close_call (fails : Bool) (ev : BrowserEvent) : List BrowserEvent × Except String Unit :=
  ([ev], if fails then Except.error "close failed" else Except.ok ())

/-- The `try: ... except Exception: pass` around each close call in
`BrowserManager.cleanup`: the raised exception is discarded. -/
def try_ignore (r : List BrowserEvent × Except String Unit) : List BrowserEvent :=
  match r.2 with
  | Except.error _ => r.1
  | Except.ok _ => r.1

/-- One iteration of the cleanup loop body: skip a `None` resource, otherwise
attempt the close and swallow any exception. -/
def cleanup_step (resource : Option Nat) (fails : Bool) (ev : BrowserEvent) : List BrowserEvent :=
  match resource with
  | none => []
  | some _ => try_ignore (close_call fails ev)

/-- `BrowserManager.cleanup`: under `self._lock`, best-effort closes page,
then browser, then playwright (each failure swallowed), then clears all three
references. `fp`/`fb`/`fw` are the per-resource raise oracles. -/
def cleanup (fp fb fw : Bool) (s : BrowserState) : BrowserState × List BrowserEvent :=
  ({ s with page := none, browser := none, playwright := none },
   [BrowserEvent.acquireLock]
     ++ cleanup_step s.page fp BrowserEvent.closePage
     ++ cleanup_step s.browser fb BrowserEvent.closeBrowser
     ++ cleanup_step s.playwright fw BrowserEvent.stopPlaywright
     ++ [BrowserEvent.releaseLock])

/-- `BrowserManager._inject_crosshair`: `page.evaluate` may raise (oracle
`raises`); the exception is caught and turned into `false`. The attempt is
always emitted. -/
def inject_crosshair (raises : Bool) : Bool × List BrowserEvent :=
  let call : List BrowserEvent × Except String Unit :=
    ([BrowserEvent.injectAttempt],
     if raises then Except.error "evaluate failed" else Except.ok ())
  match call.2 with
  | Except.error _ => (false, call.1)
  | Except.ok _ => (true, call.1)

/-- The retry loop of `BrowserManager.take_screenshot`: keep attempting
injection (one attempt per sleep-quantum `t`) until success or the attempt
budget (`reconnect_timeout`) is exhausted. Returns whether injection succeeded
and the attempts made. -/
def injectRetryLoop (raises : Nat → Bool) : Nat → Nat → Bool × List BrowserEvent
  | 0, _ => (false, [])
  | fuel + 1, t =>
    let attempt := inject_crosshair (raises t)
    if attempt.1 then (true, attempt.2)
    else
      let rest := injectRetryLoop raises fuel (t + 1)
      (rest.1, attempt.2 ++ rest.2)

/-- The base64 alphabet used by `base64.b64encode`. -/
def base64Chars : List Char :=
  "ABCDEFGHIJKLMNOPQRSTUVWXYZabcdefghijklmnopqrstuvwxyz0123456789+/".data

/-- Character of the base64 alphabet at index `n`. -/
def b64c (n : Nat) : Char := base64Chars.getD n '?'

/-- RFC 4648 base64 encoding of a byte sequence with padding, as performed by
`base64.b64encode(...).decode()`. -/
def base64Encode : List Nat → String
  | [] => ""
  | [a] => String.mk [b64c (a / 4), b64c (a % 4 * 16), '=', '=']
  | [a, b] => String.mk [b64c (a / 4), b64c (a % 4 * 16 + b / 16), b64c (b % 16 * 4), '=']
  | a :: b :: c :: rest =>
    String.mk [b64c (a / 4), b64c (a % 4 * 16 + b / 16), b64c (b % 16 * 4 + c / 64), b64c (c % 64)]
      ++ base64Encode rest

/-- The value returned by `BrowserManager.take_screenshot`:
`{"screenshot": <base64>, "screenshot_index": <post-increment counter>}`. -/
structure ScreenshotResult where
  screenshot : String
  screenshot_index : Nat
deriving DecidableEq, Repr

/-- `BrowserManager.take_screenshot`: under `self._lock` (via `_browser_lock`),
ensures the page — an AttributeError raised there propagates to the caller,
with the context managers still releasing the lock — then retries crosshair
injection until success or the reconnect budget runs out (injection failures
are swallowed, never raised), settles, captures the screenshot (`shot`
abstracts the PNG bytes the surface produces), best-effort removes the
crosshair, increments the counter and returns the encoded image with the
post-increment index. -/
def take_screenshot (raises : Nat → Bool) (shot : List Nat) (s : BrowserState) :
    Except String ScreenshotResult × BrowserState × List BrowserEvent :=
  let ens := ensure_browser s
  match ens.1 with
  | Except.error e =>
    (Except.error e, ens.2.1,
     [BrowserEvent.acquireLock] ++ ens.2.2 ++ [BrowserEvent.releaseLock])
  | Except.ok _ =>
    let s1 := ens.2.1
    let loop := injectRetryLoop raises s1.reconnect_timeout 0
    let s2 := { s1 with screenshot_index := s1.screenshot_index + 1 }
    (Except.ok { screenshot := base64Encode shot, screenshot_index := s2.screenshot_index },
     s2,
     [BrowserEvent.acquireLock]
       ++ ens.2.2
       ++ loop.2
       ++ [BrowserEvent.screenshotCapture, BrowserEvent.removeCrosshair,
           BrowserEvent.releaseLock])

/-- `BrowserManager.constrain_mouse_position`: refuses when a window dimension
is non-positive; clamps and moves only when `mouse_x >= window_width` or
`mouse_y >= window_height`; otherwise leaves everything unchanged. Returns
whether an adjustment occurred. -/
def constrain_mouse_position (s : BrowserState) : Bool × BrowserState × List BrowserEvent :=
  if s.window_width ≤ 0 ∨ s.window_height ≤ 0 then
    (false, s, [])
  else if s.mouse_x ≥ s.window_width ∨ s.mouse_y ≥ s.window_height then
    let mx := max 0 (min s.mouse_x (s.window_width - 1))
    let my := max 0 (min s.mouse_y (s.window_height - 1))
    (true,
     { s with mouse_x := mx, mouse_y := my },
     [BrowserEvent.mouseMove mx my])
  else
    (false, s, [])

/-- `BrowserManager.key_down`: translates via `get_key` (raising first on an
unmapped name, before any surface interaction), then calls
`self.page.keyboard.down` — which itself raises if `self.page` is `None`.
The `Option String` component is the propagated exception, if any. -/
def key_down (key : String) (s : BrowserState) : BrowserState × List BrowserEvent × Option String :=
  match get_key key with
  | Except.error e => (s, [], some e)
  | Except.ok pk =>
    match s.page with
    | none => (s, [], some "AttributeError: page is None")
    | some _ => (s, [BrowserEvent.keyboardDown pk], none)

/-- `BrowserManager.key_press`: same shape as `key_down` with `keyboard.press`. -/
def key_press (key : String) (s : BrowserState) : BrowserState × List BrowserEvent × Option String :=
  match get_key key with
  | Except.error e => (s, [], some e)
  | Except.ok pk =>
    match s.page with
    | none => (s, [], some "AttributeError: page is None")
    | some _ => (s, [BrowserEvent.keyboardPress pk], none)

/-- `BrowserManager.key_up`: same shape as `key_down` with `keyboard.up`. -/
def key_up (key : String) (s : BrowserState) : BrowserState × List BrowserEvent × Option String :=
  match get_key key with
  | Except.error e => (s, [], some e)
  | Except.ok pk =>
    match s.page with
    | none => (s, [], some "AttributeError: page is None")
    | some _ => (s, [BrowserEvent.keyboardUp pk], none)

/-- Events that touch the Session (the page surface or the shared buffer), as
opposed to pure lock traffic. -/
def touchesSession : BrowserEvent → Bool
  | BrowserEvent.acquireLock => false
  | BrowserEvent.releaseLock => false
  | _ => true

/-- Checks a trace for the locking discipline: every session-touching event
happens while the lock is held (given the initial held state). -/
def locksBeforeTouches : Bool → List BrowserEvent → Bool
  | _, [] => true
  | _, BrowserEvent.acquireLock :: rest => locksBeforeTouches true rest
  | _, BrowserEvent.releaseLock :: rest => locksBeforeTouches false rest
  | held, e :: rest => (!touchesSession e || held) && locksBeforeTouches held rest

/-- Fold of a batch of console events through the `on_console` callback
(the page surface delivering events between two drains). -/
def appendAll (es : List ConsoleEntry) (s : BrowserState) : BrowserState :=
  es.foldl (fun st e => (on_console e st).1) s

/-- Recognizes page-creation events. -/
def isNewPageEvent : BrowserEvent → Bool
  | BrowserEvent.newPage _ => true
  | _ => false

/-- Recognizes cursor-move events. -/
def isMouseMoveEvent : BrowserEvent → Bool
  | BrowserEvent.mouseMove _ _ => true
  | _ => false

/-- A manager state with a live session (page identity 1). -/
def pagedState : BrowserState := { initState with page := some 1 }

/-- A 100x100-window state whose cursor sits at (-5, 50): inside the upper
bounds but with a negative x coordinate. -/
def c2State : BrowserState :=
  { initState with window_width := 100, window_height := 100,
                   mouse_x := -5, mouse_y := 50 }

/-- The spec scenario state: 100x100 window, cursor at (150, 50). -/
def c2TriggerState : BrowserState :=
  { initState with window_width := 100, window_height := 100,
                   mouse_x := 150, mouse_y := 50 }

/-- A live-session state with a non-zero screenshot counter (5) and cursor
(7, 8). -/
def c4State : BrowserState :=
  { initState with page := some 1, screenshot_index := 5,
                   mouse_x := 7, mouse_y := 8 }

/-- A sample console entry. -/
def cEntry : ConsoleEntry :=
  { msgType := "log", text := "m", timestamp := 0, location := "" }

/-- Helper: every member of a string list occurs as a contiguous substring of
its comma-join. -/
theorem joinComma_mem_substring (l : List String) (s : String) (h : s ∈ l) :
    ∃ pre post : String, joinComma l = pre ++ (s ++ post) := by
  induction l with
  | nil => cases h
  | cons a rest ih =>
    cases rest with
    | nil =>
      rcases List.mem_singleton.mp h with rfl
      exact ⟨"", "", by simp [joinComma, String.empty_append, String.append_empty]⟩
    | cons b rest2 =>
      rcases List.mem_cons.mp h with rfl | hmem
      · refine ⟨"", ", " ++ joinComma (b :: rest2), ?_⟩
        simp [joinComma, String.empty_append, String.append_assoc]
      · rcases ih hmem with ⟨pre, post, hpre⟩
        refine ⟨(a ++ ", ") ++ pre, post, ?_⟩
        simp [joinComma, hpre, String.append_assoc]

/-- Claim C8: for every key name in the supported set, `get_key` is
case-insensitive — any two case variants (strings with equal lower-casings,
one of them mapped) translate to the same canonical identifier. -/
theorem get_key_case_insensitive (k₁ k₂ : String)
    (hcase : pyLower k₁ = pyLower k₂)
    (hmapped : (KEY_MAP.lookup (pyLower k₁)).isSome = true) :
    get_key k₁ = get_key k₂ ∧ ∃ id, get_key k₁ = Except.ok id := by
  unfold get_key
  rw [← hcase]
  rcases hsome : KEY_MAP.lookup (pyLower k₁) with _ | v
  · rw [hsome] at hmapped; cases hmapped
  · exact ⟨rfl, v, rfl⟩

/-- Witness for C8: "A" and "a" are case variants of a supported key and
translate identically (to "KeyA"). -/
theorem get_key_case_insensitive_witness :
    pyLower "A" = pyLower "a" ∧ (KEY_MAP.lookup (pyLower "A")).isSome = true ∧
      (get_key "A" = get_key "a" ∧ ∃ id, get_key "A" = Except.ok id) :=
  ⟨by decide, by decide, get_key_case_insensitive "A" "a" (by decide) (by decide)⟩

/-- Claim C9: for every name whose lower-casing is unmapped, `get_key` fails
with the ValueError message (never returns the input or any identifier), and
the message contains every supported key name as a contiguous substring. -/
theorem get_key_unmapped_error (k : String)
    (h : KEY_MAP.lookup (pyLower k) = none) :
    get_key k = Except.error (supported_keys_message k) ∧
    (∀ v, get_key k ≠ Except.ok v) ∧
    ∀ name ∈ KEY_MAP.map Prod.fst,
      ∃ pre post : String, supported_keys_message k = pre ++ (name ++ post) := by
  refine ⟨?_, ?_, ?_⟩
  · unfold get_key; rw [h]
  · intro v hv
    unfold get_key at hv; rw [h] at hv; cases hv
  · intro name hmem
    rcases joinComma_mem_substring (KEY_MAP.map Prod.fst) name hmem with ⟨pre, post, hpre⟩
    refine ⟨("Key " ++ k ++ " not found. Supported keys: ") ++ pre, post, ?_⟩
    unfold supported_keys_message
    rw [hpre]
    simp [String.append_assoc]

/-- Witness for C9: "notakey" is unmapped; `get_key` yields the enumerating
error. -/
theorem get_key_unmapped_error_witness :
    KEY_MAP.lookup (pyLower "notakey") = none ∧
      (get_key "notakey" = Except.error (supported_keys_message "notakey") ∧
        (∀ v, get_key "notakey" ≠ Except.ok v) ∧
        ∀ name ∈ KEY_MAP.map Prod.fst,
          ∃ pre post : String,
            supported_keys_message "notakey" = pre ++ (name ++ post)) :=
  ⟨by decide, get_key_unmapped_error "notakey" (by decide)⟩

/-- Claim C10: on an unmapped key name, `key_down`, `key_press` and `key_up`
raise the translation error before issuing any keyboard event: the state is
returned unchanged (cursor, counter and console buffer included) and the
emitted event trace is empty. -/
theorem key_events_invalid_atomic (k : String) (s : BrowserState)
    (h : KEY_MAP.lookup (pyLower k) = none) :
    key_down k s = (s, [], some (supported_keys_message k)) ∧
    key_press k s = (s, [], some (supported_keys_message k)) ∧
    key_up k s = (s, [], some (supported_keys_message k)) := by
  have hk : get_key k = Except.error (supported_keys_message k) := by
    unfold get_key; rw [h]
  refine ⟨?_, ?_, ?_⟩ <;> simp [key_down, key_press, key_up, hk]

/-- Witness for C10: the unmapped name "notakey" leaves `initState` untouched
through all three key commands. -/
theorem key_events_invalid_atomic_witness :
    KEY_MAP.lookup (pyLower "notakey") = none ∧
      (key_down "notakey" initState = (initState, [], some (supported_keys_message "notakey")) ∧
        key_press "notakey" initState = (initState, [], some (supported_keys_message "notakey")) ∧
        key_up "notakey" initState = (initState, [], some (supported_keys_message "notakey"))) :=
  ⟨by decide, key_events_invalid_atomic "notakey" initState (by decide)⟩

/-- Helper: folding events through `on_console` appends them in order to the
buffer. -/
theorem appendAll_messages (es : List ConsoleEntry) (s : BrowserState) :
    (appendAll es s).console_messages = s.console_messages ++ es := by
  induction es generalizing s with
  | nil => simp [appendAll]
  | cons e rest ih =>
    show (appendAll rest (on_console e s).1).console_messages = _
    rw [ih]
    simp [on_console]

/-- Claim C6: `get_console_output` returns the buffered entries in insertion
order and empties the buffer: a second drain with no intervening events
returns `[]`, entries delivered between two drains are returned by the second
drain exactly, and the two drains together return every entry exactly once. -/
theorem drain_console_exactly_once (s : BrowserState) (es : List ConsoleEntry) :
    (get_console_output s).1 = s.console_messages ∧
    (get_console_output s).2.1.console_messages = [] ∧
    (get_console_output (get_console_output s).2.1).1 = [] ∧
    (get_console_output (appendAll es (get_console_output s).2.1)).1 = es ∧
    (get_console_output s).1
        ++ (get_console_output (appendAll es (get_console_output s).2.1)).1
      = s.console_messages ++ es := by
  refine ⟨rfl, rfl, rfl, ?_, ?_⟩ <;>
    simp [get_console_output, appendAll_messages]

/-- Claim C5: `cleanup` releases the page, then the browser, then the
playwright runtime, in that order; a raise in any close call (the `fp`, `fb`,
`fw` oracles) is swallowed, so every remaining step is still attempted and the
outcome is identical to a failure-free run; all references end cleared. -/
theorem cleanup_best_effort (fp fb fw : Bool) (s : BrowserState)
    (hp : s.page.isSome = true) (hb : s.browser.isSome = true)
    (hw : s.playwright.isSome = true) :
    (cleanup fp fb fw s).2 =
      [BrowserEvent.acquireLock, BrowserEvent.closePage, BrowserEvent.closeBrowser,
       BrowserEvent.stopPlaywright, BrowserEvent.releaseLock] ∧
    cleanup fp fb fw s = cleanup false false false s ∧
    (cleanup fp fb fw s).1.page = none ∧
    (cleanup fp fb fw s).1.browser = none ∧
    (cleanup fp fb fw s).1.playwright = none := by
  obtain ⟨p, hp'⟩ := Option.isSome_iff_exists.mp hp
  obtain ⟨b, hb'⟩ := Option.isSome_iff_exists.mp hb
  obtain ⟨w, hw'⟩ := Option.isSome_iff_exists.mp hw
  cases fp <;> cases fb <;> cases fw <;>
    simp [cleanup, cleanup_step, try_ignore, close_call, hp', hb', hw']

/-- Witness for C5: cleanup of a live-session state in which every close call
raises still attempts all three releases in order and clears all references. -/
theorem cleanup_best_effort_witness :
    pagedState.page.isSome = true ∧ pagedState.browser.isSome = true ∧
      pagedState.playwright.isSome = true ∧
      ((cleanup true true true pagedState).2 =
        [BrowserEvent.acquireLock, BrowserEvent.closePage, BrowserEvent.closeBrowser,
         BrowserEvent.stopPlaywright, BrowserEvent.releaseLock] ∧
      cleanup true true true pagedState = cleanup false false false pagedState ∧
      (cleanup true true true pagedState).1.page = none ∧
      (cleanup true true true pagedState).1.browser = none ∧
      (cleanup true true true pagedState).1.playwright = none) :=
  ⟨rfl, rfl, rfl, cleanup_best_effort true true true pagedState rfl rfl rfl⟩

/-- Counterexample to claim C4: `cleanup` discards the session but does not
reset the screenshot counter or the cursor: from a live state with counter 5
and cursor (7, 8), the post-cleanup state still holds counter 5 and cursor
(7, 8) rather than the reset values. -/
theorem cleanup_counter_not_reset :
    (cleanup false false false c4State).1.screenshot_index = 5 ∧
    ¬ (cleanup false false false c4State).1.screenshot_index = 0 ∧
    (cleanup false false false c4State).1.mouse_x = 7 ∧
    ¬ ((cleanup false false false c4State).1.mouse_x = 0 ∧
        (cleanup false false false c4State).1.mouse_y = 0) ∧
    (ensure_browser (cleanup false false false c4State).1).1 =
      Except.error "AttributeError: browser is None" ∧
    (ensure_browser (cleanup false false false c4State).1).2.1.page = none :=
  ⟨by decide, by decide, by decide, by decide, rfl, rfl⟩

/-- Claim C4 (amended): `cleanup` clears the page/browser/playwright
references without resetting the screenshot counter or the cursor; and
because the browser reference is also cleared, a later command that requires
a live surface does not re-create a fresh session: `_ensure_browser`
dereferences the `None` browser and raises AttributeError, creating no page
and leaving the state unchanged (only construction launches a browser). -/
theorem cleanup_aftermath (fp fb fw : Bool) (s : BrowserState) :
    (cleanup fp fb fw s).1.page = none ∧
    (cleanup fp fb fw s).1.browser = none ∧
    (cleanup fp fb fw s).1.playwright = none ∧
    (cleanup fp fb fw s).1.screenshot_index = s.screenshot_index ∧
    (cleanup fp fb fw s).1.mouse_x = s.mouse_x ∧
    (cleanup fp fb fw s).1.mouse_y = s.mouse_y ∧
    (ensure_browser (cleanup fp fb fw s).1).1 =
      Except.error "AttributeError: browser is None" ∧
    (ensure_browser (cleanup fp fb fw s).1).2.1 = (cleanup fp fb fw s).1 ∧
    (ensure_browser (cleanup fp fb fw s).1).2.2 = [] := by
  simp [cleanup, ensure_browser]

/-- Claim C7: `_ensure_browser` is idempotent — called on a manager without a
session but with its browser live (no intervening cleanup has cleared it) it
creates the session, zeroing the cursor and emitting exactly one page
creation and exactly one cursor move; called again it returns the same page
identity and state with no further surface events. -/
theorem ensure_browser_idempotent (s : BrowserState) (h : s.page = none)
    (hb : s.browser.isSome = true) :
    (ensure_browser s).1 = Except.ok s.nextPageId ∧
    (ensure_browser (ensure_browser s).2.1).1 = (ensure_browser s).1 ∧
    (ensure_browser (ensure_browser s).2.1).2.1 = (ensure_browser s).2.1 ∧
    (ensure_browser (ensure_browser s).2.1).2.2 = [] ∧
    (ensure_browser s).2.1.page = some s.nextPageId ∧
    (ensure_browser s).2.1.mouse_x = 0 ∧
    (ensure_browser s).2.1.mouse_y = 0 ∧
    ((ensure_browser s).2.2.filter isNewPageEvent).length = 1 ∧
    ((ensure_browser s).2.2.filter isMouseMoveEvent).length = 1 := by
  obtain ⟨b, hb'⟩ := Option.isSome_iff_exists.mp hb
  simp [ensure_browser, h, hb', isNewPageEvent, isMouseMoveEvent]

/-- Witness for C7: ensuring twice from the freshly constructed manager state
(page absent, browser live) returns the same session identity with no
duplicate creation. -/
theorem ensure_browser_idempotent_witness :
    initState.page = none ∧ initState.browser.isSome = true ∧
      ((ensure_browser initState).1 = Except.ok initState.nextPageId ∧
        (ensure_browser (ensure_browser initState).2.1).1 = (ensure_browser initState).1 ∧
        (ensure_browser (ensure_browser initState).2.1).2.1 = (ensure_browser initState).2.1 ∧
        (ensure_browser (ensure_browser initState).2.1).2.2 = [] ∧
        (ensure_browser initState).2.1.page = some initState.nextPageId ∧
        (ensure_browser initState).2.1.mouse_x = 0 ∧
        (ensure_browser initState).2.1.mouse_y = 0 ∧
        ((ensure_browser initState).2.2.filter isNewPageEvent).length = 1 ∧
        ((ensure_browser initState).2.2.filter isMouseMoveEvent).length = 1) :=
  ⟨rfl, rfl, ensure_browser_idempotent initState rfl rfl⟩

/-- Claim C1: once a session exists, for every injection-failure pattern
(including one that fails on every attempt until the retry budget is
exhausted), `take_screenshot` returns the base64 encoding of the captured
bytes together with the post-increment screenshot counter; the capture always
happens and no injection error reaches the caller. -/
theorem take_screenshot_soft_fail (raises : Nat → Bool) (shot : List Nat)
    (s : BrowserState) (p : Nat) (hp : s.page = some p) :
    (take_screenshot raises shot s).1 =
      Except.ok { screenshot := base64Encode shot,
                  screenshot_index := s.screenshot_index + 1 } ∧
    (take_screenshot raises shot s).2.1.screenshot_index = s.screenshot_index + 1 ∧
    BrowserEvent.screenshotCapture ∈ (take_screenshot raises shot s).2.2 := by
  simp [take_screenshot, ensure_browser, hp]

/-- Witness for C1: on a live session with an injection oracle that fails on
every attempt, the screenshot still comes back encoded with index 1. -/
theorem take_screenshot_soft_fail_witness :
    pagedState.page = some 1 ∧
      ((take_screenshot (fun _ => true) [77, 97, 110] pagedState).1 =
        Except.ok { screenshot := base64Encode [77, 97, 110],
                    screenshot_index := pagedState.screenshot_index + 1 } ∧
      (take_screenshot (fun _ => true) [77, 97, 110] pagedState).2.1.screenshot_index =
        pagedState.screenshot_index + 1 ∧
      BrowserEvent.screenshotCapture ∈
        (take_screenshot (fun _ => true) [77, 97, 110] pagedState).2.2) :=
  ⟨rfl, take_screenshot_soft_fail (fun _ => true) [77, 97, 110] pagedState 1 rfl⟩

/-- Counterexample to claim C2: with a positive 100x100 window and cursor
(-5, 50), the clamp of each axis to [0, dim-1] gives (0, 50), which differs
from the current cursor, yet `constrain_mouse_position` issues no corrective
move, reports no adjustment, and leaves the cursor at (-5, 50) — the claimed
"exactly one move iff the clamped position differs (including negative
coordinates)" biconditional fails. -/
theorem constrain_negative_not_clamped :
    (0 : Int) < c2State.window_width ∧ (0 : Int) < c2State.window_height ∧
    max 0 (min c2State.mouse_x (c2State.window_width - 1)) ≠ c2State.mouse_x ∧
    (constrain_mouse_position c2State).1 = false ∧
    (constrain_mouse_position c2State).2.1 = c2State ∧
    (constrain_mouse_position c2State).2.2 = [] ∧
    ¬ (((constrain_mouse_position c2State).2.2.length = 1) ↔
        (max 0 (min c2State.mouse_x (c2State.window_width - 1)) ≠ c2State.mouse_x ∨
          max 0 (min c2State.mouse_y (c2State.window_height - 1)) ≠ c2State.mouse_y)) := by
  decide

/-- Claim C2 (amended): with positive window dimensions,
`constrain_mouse_position` issues exactly one corrective move iff a coordinate
is at or beyond its dimension; in that case both axes are clamped into
[0, dimension-1] and an adjustment is reported; when both coordinates are
strictly below their dimensions (even if one is negative) it does nothing; and
when either dimension is non-positive it refuses to act, leaving the cursor
unchanged. -/
theorem constrain_mouse_position_spec (s : BrowserState) :
    ((s.window_width ≤ 0 ∨ s.window_height ≤ 0) →
      constrain_mouse_position s = (false, s, [])) ∧
    (0 < s.window_width → 0 < s.window_height →
      (((constrain_mouse_position s).2.2.length = 1 ↔
          (s.window_width ≤ s.mouse_x ∨ s.window_height ≤ s.mouse_y)) ∧
        ((s.window_width ≤ s.mouse_x ∨ s.window_height ≤ s.mouse_y) →
          (constrain_mouse_position s =
            (true,
             { s with
                mouse_x := max 0 (min s.mouse_x (s.window_width - 1)),
                mouse_y := max 0 (min s.mouse_y (s.window_height - 1)) },
             [BrowserEvent.mouseMove
                (max 0 (min s.mouse_x (s.window_width - 1)))
                (max 0 (min s.mouse_y (s.window_height - 1)))]) ∧
            0 ≤ max 0 (min s.mouse_x (s.window_width - 1)) ∧
            max 0 (min s.mouse_x (s.window_width - 1)) ≤ s.window_width - 1 ∧
            0 ≤ max 0 (min s.mouse_y (s.window_height - 1)) ∧
            max 0 (min s.mouse_y (s.window_height - 1)) ≤ s.window_height - 1)) ∧
        (¬ (s.window_width ≤ s.mouse_x ∨ s.window_height ≤ s.mouse_y) →
          constrain_mouse_position s = (false, s, [])))) := by
  constructor
  · intro h
    unfold constrain_mouse_position
    rw [if_pos h]
  · intro hw hh
    have hdim : ¬ (s.window_width ≤ 0 ∨ s.window_height ≤ 0) := by omega
    refine ⟨?_, ?_, ?_⟩
    · constructor
      · intro hlen
        by_contra hge
        unfold constrain_mouse_position at hlen
        rw [if_neg hdim] at hlen
        have hge' : ¬ (s.mouse_x ≥ s.window_width ∨ s.mouse_y ≥ s.window_height) := hge
        rw [if_neg hge'] at hlen
        simp at hlen
      · intro hge
        unfold constrain_mouse_position
        rw [if_neg hdim, if_pos hge]
        rfl
    · intro hge
      unfold constrain_mouse_position
      rw [if_neg hdim, if_pos hge]
      refine ⟨rfl, le_max_left 0 _, ?_, le_max_left 0 _, ?_⟩
      · exact max_le (by omega) (min_le_right _ _)
      · exact max_le (by omega) (min_le_right _ _)
    · intro hlt
      unfold constrain_mouse_position
      rw [if_neg hdim, if_neg hlt]

/-- Witness for C2 (amended), on the spec scenario: a 100x100 window with the
cursor at (150, 50) clamps to (99, 50) with exactly one corrective move. -/
theorem constrain_mouse_position_spec_witness :
    (((c2TriggerState.window_width ≤ 0 ∨ c2TriggerState.window_height ≤ 0) →
        constrain_mouse_position c2TriggerState = (false, c2TriggerState, [])) ∧
      (0 < c2TriggerState.window_width → 0 < c2TriggerState.window_height →
        (((constrain_mouse_position c2TriggerState).2.2.length = 1 ↔
            (c2TriggerState.window_width ≤ c2TriggerState.mouse_x ∨
              c2TriggerState.window_height ≤ c2TriggerState.mouse_y)) ∧
          ((c2TriggerState.window_width ≤ c2TriggerState.mouse_x ∨
              c2TriggerState.window_height ≤ c2TriggerState.mouse_y) →
            (constrain_mouse_position c2TriggerState =
              (true,
               { c2TriggerState with
                  mouse_x := max 0 (min c2TriggerState.mouse_x (c2TriggerState.window_width - 1)),
                  mouse_y := max 0 (min c2TriggerState.mouse_y (c2TriggerState.window_height - 1)) },
               [BrowserEvent.mouseMove
                  (max 0 (min c2TriggerState.mouse_x (c2TriggerState.window_width - 1)))
                  (max 0 (min c2TriggerState.mouse_y (c2TriggerState.window_height - 1)))]) ∧
              0 ≤ max 0 (min c2TriggerState.mouse_x (c2TriggerState.window_width - 1)) ∧
              max 0 (min c2TriggerState.mouse_x (c2TriggerState.window_width - 1)) ≤
                c2TriggerState.window_width - 1 ∧
              0 ≤ max 0 (min c2TriggerState.mouse_y (c2TriggerState.window_height - 1)) ∧
              max 0 (min c2TriggerState.mouse_y (c2TriggerState.window_height - 1)) ≤
                c2TriggerState.window_height - 1)) ∧
          (¬ (c2TriggerState.window_width ≤ c2TriggerState.mouse_x ∨
              c2TriggerState.window_height ≤ c2TriggerState.mouse_y) →
            constrain_mouse_position c2TriggerState = (false, c2TriggerState, []))))) ∧
    constrain_mouse_position c2TriggerState =
      (true, { c2TriggerState with mouse_x := 99, mouse_y := 50 },
       [BrowserEvent.mouseMove 99 50]) :=
  ⟨constrain_mouse_position_spec c2TriggerState, by decide⟩

/-- Helper: the injection retry loop emits only injection attempts. -/
theorem injectRetryLoop_events (raises : Nat → Bool) (fuel : Nat) :
    ∀ t e, e ∈ (injectRetryLoop raises fuel t).2 → e = BrowserEvent.injectAttempt := by
  induction fuel with
  | zero =>
    intro t e h
    simp [injectRetryLoop] at h
  | succ n ih =>
    intro t e h
    by_cases hr : raises t = true
    · simp [injectRetryLoop, inject_crosshair, hr] at h
      rcases h with h | h
      · exact h
      · exact ih (t + 1) e h
    · have hr' : raises t = false := by simpa using hr
      simp [injectRetryLoop, inject_crosshair, hr'] at h
      exact h

/-- Helper: a block of non-lock events is transparent to the locking check
while the lock is held. -/
theorem lbt_true_append (l₁ l₂ : List BrowserEvent)
    (h₁ : ∀ e ∈ l₁, e ≠ BrowserEvent.acquireLock ∧ e ≠ BrowserEvent.releaseLock) :
    locksBeforeTouches true (l₁ ++ l₂) = locksBeforeTouches true l₂ := by
  induction l₁ with
  | nil => rfl
  | cons e rest ih =>
    have he := h₁ e (List.mem_cons_self e rest)
    have hrest : ∀ x ∈ rest, x ≠ BrowserEvent.acquireLock ∧ x ≠ BrowserEvent.releaseLock :=
      fun x hx => h₁ x (List.mem_cons_of_mem e hx)
    cases e <;> simp_all [locksBeforeTouches, touchesSession]

/-- Counterexample to claim C3: on a live session, `key_down` touches the
keyboard of the page surface with no lock acquisition in its trace, and the
console callback appends to the buffer without acquiring the lock either —
the locking check fails on both, refuting "every command-handling method
(including keyDown...) acquires the lock" and "the console callback acquires
that same lock". -/
theorem key_down_bypasses_lock :
    (key_down "a" pagedState).2.1 = [BrowserEvent.keyboardDown "KeyA"] ∧
    locksBeforeTouches false (key_down "a" pagedState).2.1 = false ∧
    (on_console cEntry pagedState).2 = [BrowserEvent.consoleAppend] ∧
    locksBeforeTouches false (on_console cEntry pagedState).2 = false := by
  decide

/-- Claim C3 (amended): `take_screenshot`, `cleanup` and `get_console_output`
acquire the manager's lock before any session-touching event, but `key_down`,
`key_press`, `key_up` and the console event callback never acquire the lock:
the key commands touch the keyboard unlocked whenever they emit anything, and
the callback appends to the buffer unlocked. -/
theorem locking_discipline (s : BrowserState) (raises : Nat → Bool)
    (shot : List Nat) (fp fb fw : Bool) (e : ConsoleEntry) (k : String) :
    locksBeforeTouches false (take_screenshot raises shot s).2.2 = true ∧
    locksBeforeTouches false (cleanup fp fb fw s).2 = true ∧
    locksBeforeTouches false (get_console_output s).2.2 = true ∧
    BrowserEvent.acquireLock ∉ (key_down k s).2.1 ∧
    BrowserEvent.acquireLock ∉ (key_press k s).2.1 ∧
    BrowserEvent.acquireLock ∉ (key_up k s).2.1 ∧
    ((key_down k s).2.1 ≠ [] →
      locksBeforeTouches false (key_down k s).2.1 = false) ∧
    BrowserEvent.acquireLock ∉ (on_console e s).2 ∧
    locksBeforeTouches false (on_console e s).2 = false := by
  have hloop : ∀ fuel t, ∀ x ∈ (injectRetryLoop raises fuel t).2,
      x ≠ BrowserEvent.acquireLock ∧ x ≠ BrowserEvent.releaseLock := by
    intro fuel t x hx
    have hx' := injectRetryLoop_events raises fuel t x hx
    subst hx'
    exact ⟨fun hcon => BrowserEvent.noConfusion hcon,
           fun hcon => BrowserEvent.noConfusion hcon⟩
  refine ⟨?_, ?_, ?_, ?_, ?_, ?_, ?_, ?_, ?_⟩
  · rcases hp : s.page with _ | p
    · rcases hb : s.browser with _ | b
      · simp [take_screenshot, ensure_browser, hp, hb, locksBeforeTouches]
      · have htr : (take_screenshot raises shot s).2.2 =
            [BrowserEvent.acquireLock] ++
              ([BrowserEvent.newContext s.window_width s.window_height,
                BrowserEvent.newPage s.nextPageId,
                BrowserEvent.consoleSubscribe,
                BrowserEvent.mouseMove 0 0] ++
                ((injectRetryLoop raises s.reconnect_timeout 0).2 ++
                  [BrowserEvent.screenshotCapture, BrowserEvent.removeCrosshair,
                   BrowserEvent.releaseLock])) := by
          simp [take_screenshot, ensure_browser, hp, hb]
        rw [htr]
        show locksBeforeTouches true
          ([BrowserEvent.newContext s.window_width s.window_height,
            BrowserEvent.newPage s.nextPageId,
            BrowserEvent.consoleSubscribe,
            BrowserEvent.mouseMove 0 0] ++
            ((injectRetryLoop raises s.reconnect_timeout 0).2 ++
              [BrowserEvent.screenshotCapture, BrowserEvent.removeCrosshair,
               BrowserEvent.releaseLock])) = true
        rw [lbt_true_append _ _ (by simp)]
        rw [lbt_true_append _ _ (hloop _ _)]
        rfl
    · have htr : (take_screenshot raises shot s).2.2 =
          [BrowserEvent.acquireLock] ++
            ((injectRetryLoop raises s.reconnect_timeout 0).2 ++
              [BrowserEvent.screenshotCapture, BrowserEvent.removeCrosshair,
               BrowserEvent.releaseLock]) := by
        simp [take_screenshot, ensure_browser, hp]
      rw [htr]
      show locksBeforeTouches true
        ((injectRetryLoop raises s.reconnect_timeout 0).2 ++
          [BrowserEvent.screenshotCapture, BrowserEvent.removeCrosshair,
           BrowserEvent.releaseLock]) = true
      rw [lbt_true_append _ _ (hloop _ _)]
      rfl
  · rcases hp : s.page with _ | p <;> rcases hb : s.browser with _ | b <;>
      rcases hpw : s.playwright with _ | w <;> cases fp <;> cases fb <;> cases fw <;>
      simp [cleanup, cleanup_step, try_ignore, close_call, hp, hb, hpw,
        locksBeforeTouches, touchesSession]
  · rfl
  · rcases hk : get_key k with msg | pk <;> rcases hp : s.page with _ | p <;>
      simp [key_down, hk, hp]
  · rcases hk : get_key k with msg | pk <;> rcases hp : s.page with _ | p <;>
      simp [key_press, hk, hp]
  · rcases hk : get_key k with msg | pk <;> rcases hp : s.page with _ | p <;>
      simp [key_up, hk, hp]
  · rcases hk : get_key k with msg | pk <;> rcases hp : s.page with _ | p <;>
      simp [key_down, hk, hp, locksBeforeTouches, touchesSession]
  · simp [on_console]
  · rfl

/-- Witness for C3 (amended), at a live session with a failing injection
oracle, all-raising cleanup, a sample console entry and the key "a". -/
theorem locking_discipline_witness :
    locksBeforeTouches false
        (take_screenshot (fun _ => false) [] pagedState).2.2 = true ∧
      locksBeforeTouches false (cleanup true true true pagedState).2 = true ∧
      locksBeforeTouches false (get_console_output pagedState).2.2 = true ∧
      BrowserEvent.acquireLock ∉ (key_down "a" pagedState).2.1 ∧
      BrowserEvent.acquireLock ∉ (key_press "a" pagedState).2.1 ∧
      BrowserEvent.acquireLock ∉ (key_up "a" pagedState).2.1 ∧
      ((key_down "a" pagedState).2.1 ≠ [] →
        locksBeforeTouches false (key_down "a" pagedState).2.1 = false) ∧
      BrowserEvent.acquireLock ∉ (on_console cEntry pagedState).2 ∧
      locksBeforeTouches false (on_console cEntry pagedState).2 = false :=
  locking_discipline pagedState (fun _ => false) [] true true true cEntry "a"
